import Mathlib

/-!
Verification of the mcp-server position-lookup service.

This file shallowly embeds the Python sources:
  backend/main.py        (the three-tier position resolver, SSE tool dispatcher,
                          WebSocket echo handler)
  server.py              (a divergent revision of the same service: plain-JSON
                          tool dispatcher with exception re-wrapping, hardcoded
                          mock fallback)
  backend/morpho_constants.py (the Market Registry and the Mock Position Store)

External collaborators are parameters of the embedded functions:
  - `Web3.to_checksum_address` is a parameter `cs : String → Except String String`
    (`.error msg` models the ValueError it raises on an invalid address);
  - the single read-only on-chain call `morpho_lens.functions.position(...)` is a
    parameter `chainResult : Option (Nat × Nat × Nat)` (`none` models any failure:
    network error, revert, malformed response; the components are the uint256
    triple supplyShares, borrowShares, collateral);
  - `json.loads` is a parameter `parse : String → Option JVal`;
  - Python `str(...)` applied to a caught exception is a parameter, since its
    exact rendering depends on the web framework version.

Machine integers do not overflow here: the on-chain values are unbounded
non-negative integers (Python ints), modelled as `Nat`.
-/

/-- Python/JSON values as they appear in request bodies and responses. -/
inductive JVal where
  | jnull
  | jbool (b : Bool)
  | jnum (n : Int)
  | jstr (s : String)
  | jarr (xs : List JVal)
  | jobj (fields : List (String × JVal))

/-- Python truthiness of a JSON-decoded value: None, False, 0, "", [] and
the empty object are falsy, everything else is truthy. -/
def JVal.truthy : JVal → Bool
  | .jnull => false
  | .jbool b => b
  | .jnum n => n != 0
  | .jstr s => !s.isEmpty
  | .jarr xs => !xs.isEmpty
  | .jobj fs => !fs.isEmpty

/-- Python `value == "s"` for a JSON-decoded value: true exactly when the value
is the string `s`. -/
def JVal.isStrEq : JVal → String → Bool
  | .jstr t, s => t = s
  | _, _ => false

/-- Python `str(value)` as used in f-string error details. Exact for the
scalar values; composite values (lists/objects) are abbreviated, which is
observable only inside the detail text of errors for composite-typed
parameters, a path no claim exercises. -/
def JVal.pyStr : JVal → String
  | .jnull => "None"
  | .jbool true => "True"
  | .jbool false => "False"
  | .jnum n => toString n
  | .jstr s => s
  | .jarr _ => "<list>"
  | .jobj _ => "<dict>"

/-- Python `dict.get(key)` over an association list (insertion order kept). -/
def dictGet {β : Type} : List (String × β) → String → Option β
  | [], _ => none
  | (k, v) :: rest, key => if key = k then some v else dictGet rest key

/-- Test EOA wallet from backend/morpho_constants.py (`TEST_EOA`). -/
def TEST_EOA : String := "0x2E2Ea30Ba045Df4bC38e80cF11E119E12e06C1C2"

/-- Market Registry from backend/morpho_constants.py: pool id -> bytes32 market
id (kept as its hex-string source literal). -/
def MARKETS : List (String × String) :=
  [("cbBTC/USDC", "0x9103c3b4e834476c9a62ea009ba2c884ee42e94e6e314a26f04d312434191836"),
   ("cbETH/USDC", "0x7b592c6018b08a4fc0a33d0de0b8f2c3a42c5c6d8e314a26f04d312434191836"),
   ("wstETH/USDC", "0x5b592c6018b08a4fc0a33d0de0b8f2c3a42c5c6d8e314a26f04d312434191836"),
   ("USDbC/USDC", "0x4b592c6018b08a4fc0a33d0de0b8f2c3a42c5c6d8e314a26f04d312434191836")]

/-- One canned position entry of the Mock Position Store. -/
structure MockEntry where
  supply_shares : String
  borrow_shares : String
  collateral : String
deriving DecidableEq

/-- Mock Position Store from backend/morpho_constants.py (`MOCK_POSITIONS`):
wallet address -> pool id -> canned entry. -/
def MOCK_POSITIONS : List (String × List (String × MockEntry)) :=
  [(TEST_EOA,
    [("cbBTC/USDC", ⟨"1000000000000000000", "0", "500000000000000000"⟩),
     ("cbETH/USDC", ⟨"2000000000000000000", "1000000000000000000", "1000000000000000000"⟩)])]

/-- Python `MOCK_POSITIONS.get(wallet, {}).get(pool_id)` (backend/main.py line
214); the found entry is a 3-key dict, hence always truthy. -/
def mockLookup (store : List (String × List (String × MockEntry)))
    (wallet pool_id : String) : Option MockEntry :=
  dictGet ((dictGet store wallet).getD []) pool_id

/-- The `source` tag of a resolved position (backend/main.py). -/
inductive Source where
  | chain
  | mock
  | empty
deriving DecidableEq

/-- Serialized source tag as emitted by backend/main.py. -/
def Source.toStr : Source → String
  | .chain => "chain"
  | .mock => "mock"
  | .empty => "empty"

/-- The values carried by a successful `get_morpho_position` response
(backend/main.py lines 199-235). In the Python source the chain branch nests
its three numeric values under a "position" key with short names
(supply/borrow/collateral) while the mock and empty branches use flat
supply_shares/borrow_shares/collateral keys; `positionJson` below reproduces
those exact shapes from this record. -/
structure PositionRecord where
  wallet : String
  pool_id : String
  market_id : String
  supply_shares : String
  borrow_shares : String
  collateral : String
  source : Source
deriving DecidableEq

/-- Error raised by an embedded handler, as an HTTPException:
`badRequest` is status 400, `internal` is status 500. -/
inductive ResolveError where
  | badRequest (detail : String)
  | internal (detail : String)
deriving DecidableEq

/-- HTTP status of an embedded HTTPException. -/
def ResolveError.status : ResolveError → Nat
  | .badRequest _ => 400
  | .internal _ => 500

/-- Resolver of backend/main.py (`get_morpho_position`, lines 183-242),
generic over the registry and mock store it reads (the module constants are
plugged in by `get_morpho_position`). Control flow translated branch for
branch:
  1. `Web3.to_checksum_address(wallet)` (the `cs` parameter); a ValueError is
     caught at line 237 and re-raised as HTTPException(400, str(e)).
  2. `market_id = MARKETS.get(pool_id)`; `if not market_id` (falsy: absent key
     or an empty-string value) raises ValueError("Invalid pool_id: ..."),
     caught at line 237 as HTTPException(400, ...). No chain call was made.
  3. one on-chain call (the `chainResult` parameter); on success return
     source = chain with the stringified uint256 triple.
  4. on chain failure, `MOCK_POSITIONS.get(wallet_address, {}).get(pool_id)`;
     on a hit return source = mock with the entry fields; on a miss return
     source = empty with all three fields "0".
The second component counts on-chain call attempts, so that "no network call
before the failure" is expressible. -/
def get_morpho_position_core (markets : List (String × String))
    (store : List (String × List (String × MockEntry)))
    (cs : String → Except String String) (chainResult : Option (Nat × Nat × Nat))
    (wallet pool_id : String) : Except ResolveError PositionRecord × Nat :=
  match cs wallet with
  | .error msg => (.error (.badRequest msg), 0)
  | .ok wallet_address =>
    match dictGet markets pool_id with
    | none => (.error (.badRequest ("Invalid pool_id: " ++ pool_id)), 0)
    | some market_id =>
      if market_id.isEmpty then
        (.error (.badRequest ("Invalid pool_id: " ++ pool_id)), 0)
      else
        match chainResult with
        | some (s, b, c) =>
          (.ok ⟨wallet_address, pool_id, market_id,
                Nat.repr s, Nat.repr b, Nat.repr c, .chain⟩, 1)
        | none =>
          match mockLookup store wallet_address pool_id with
          | some m =>
            (.ok ⟨wallet_address, pool_id, market_id,
                  m.supply_shares, m.borrow_shares, m.collateral, .mock⟩, 1)
          | none =>
            (.ok ⟨wallet_address, pool_id, market_id, "0", "0", "0", .empty⟩, 1)

/-- backend/main.py `get_morpho_position` against the module-level registry
and mock store. -/
def get_morpho_position (cs : String → Except String String)
    (chainResult : Option (Nat × Nat × Nat)) (wallet pool_id : String) :
    Except ResolveError PositionRecord × Nat :=
  get_morpho_position_core MARKETS MOCK_POSITIONS cs chainResult wallet pool_id

/-- A non-negative decimal-integer string: the decimal representation of some
natural number. -/
def IsDecimalOfNat (s : String) : Prop := ∃ n : Nat, Nat.repr n = s

/-- backend/main.py `summarize_text` (lines 178-181): returns the JSON object
with the input text echoed under the "summary" key. -/
def summarize_text (text : JVal) : JVal := .jobj [("summary", text)]

/-- A `POST /tools` request body, as read through `request.get(...)`:
`none` is an absent key, `some .jnull` a key bound to JSON null (the Python
`dict.get` without default returns None in both cases; `.get("text", "")`
distinguishes them). -/
structure ToolRequest where
  task : Option JVal
  text : Option JVal
  wallet : Option JVal
  pool_id : Option JVal

/-- SSE dispatcher of backend/main.py (`stream_tool_response`, lines 121-143),
generic over the registry and mock store the resolver reads. Returns the list
of payloads of the emitted `data: <json>\n\n` frames (the literal
`"data: " ++ json.dumps(...) ++ "\n\n"` framing carries no further logic).
Branch for branch:
  - `task = request.get("task")`; `if not task` (absent, null, or otherwise
    falsy) yields the frame with the error string "No task specified";
  - task == "summarize": `text = request.get("text", "")` (absent key defaults
    to the empty string; a present value, null included, is passed through);
    yields the `summarize_text` object;
  - task == "morpho_get_position": `if not wallet or not pool_id` yields the
    error frame "Missing wallet or pool_id"; otherwise the resolver runs on
    the parameter values (`JVal.pyStr` renders a non-string value as the
    string the downstream lookups see); a resolver success yields its JSON,
    a resolver HTTPException is caught by the surrounding `except Exception`
    and yields an error frame whose text is Python `str(e)` (the `excRender`
    parameter);
  - any other task yields the error frame "Unknown task: <task>". -/
def stream_tool_response_core (markets : List (String × String))
    (store : List (String × List (String × MockEntry)))
    (cs : String → Except String String) (chainResult : Option (Nat × Nat × Nat))
    (excRender : ResolveError → String)
    (positionJson : PositionRecord → JVal) (req : ToolRequest) : List JVal :=
  let task := req.task.getD .jnull
  if !task.truthy then
    [.jobj [("error", .jstr "No task specified")]]
  else if task.isStrEq "summarize" then
    let text := match req.text with
      | none => .jstr ""
      | some v => v
    [summarize_text text]
  else if task.isStrEq "morpho_get_position" then
    let wallet := req.wallet.getD .jnull
    let pool_id := req.pool_id.getD .jnull
    if !wallet.truthy || !pool_id.truthy then
      [.jobj [("error", .jstr "Missing wallet or pool_id")]]
    else
      match (get_morpho_position_core markets store cs chainResult
              wallet.pyStr pool_id.pyStr).1 with
      | .ok r => [positionJson r]
      | .error e => [.jobj [("error", .jstr (excRender e))]]
  else
    [.jobj [("error", .jstr ("Unknown task: " ++ task.pyStr))]]

/-- JSON shape of a backend/main.py `get_morpho_position` success response:
the chain branch (lines 199-209) nests supply/borrow/collateral under
"position"; the mock branch (lines 217-223) and the empty branch (lines
227-235) use flat supply_shares/borrow_shares/collateral keys. -/
def positionJson (r : PositionRecord) : JVal :=
  match r.source with
  | .chain =>
    .jobj [("wallet", .jstr r.wallet), ("pool_id", .jstr r.pool_id),
           ("market_id", .jstr r.market_id),
           ("position", .jobj [("supply", .jstr r.supply_shares),
                               ("borrow", .jstr r.borrow_shares),
                               ("collateral", .jstr r.collateral)]),
           ("source", .jstr "chain")]
  | .mock =>
    .jobj [("wallet", .jstr r.wallet), ("pool_id", .jstr r.pool_id),
           ("market_id", .jstr r.market_id),
           ("supply_shares", .jstr r.supply_shares),
           ("borrow_shares", .jstr r.borrow_shares),
           ("collateral", .jstr r.collateral),
           ("source", .jstr "mock")]
  | .empty =>
    .jobj [("wallet", .jstr r.wallet), ("pool_id", .jstr r.pool_id),
           ("market_id", .jstr r.market_id),
           ("supply_shares", .jstr r.supply_shares),
           ("borrow_shares", .jstr r.borrow_shares),
           ("collateral", .jstr r.collateral),
           ("source", .jstr "empty")]

/-- backend/main.py `stream_tool_response` against the module-level registry
and mock store. -/
def stream_tool_response (cs : String → Except String String)
    (chainResult : Option (Nat × Nat × Nat)) (excRender : ResolveError → String)
    (req : ToolRequest) : List JVal :=
  stream_tool_response_core MARKETS MOCK_POSITIONS cs chainResult excRender
    positionJson req

/-- A successful response of server.py `get_morpho_position` (lines 174-196):
flat supply_shares/borrow_shares/collateral keys in both branches, source tag
"on-chain" or "mock" (this revision never returns "empty" and ignores the
Mock Position Store, answering with one hardcoded record on chain failure). -/
structure ServerPositionRecord where
  wallet : String
  pool_id : String
  market_id : String
  supply_shares : String
  borrow_shares : String
  collateral : String
  source : String
deriving DecidableEq

/-- Resolver of server.py (`get_morpho_position`, lines 153-203). Branch for
branch:
  1. checksum the wallet; a ValueError is caught at line 198 and re-raised as
     HTTPException(400, str(e));
  2. `if not market_id` raises HTTPException(400, "Invalid pool_id: ...") at
     line 162 — but that exception is itself caught by the blanket
     `except Exception` at line 201 and re-raised as HTTPException(500,
     str(e)), so an unknown pool surfaces as a 500 in this revision
     (`excStr s d` is Python `str(...)` of an HTTPException with status `s`
     and detail `d`);
  3. on chain success, return the stringified triple with source "on-chain";
  4. on any chain failure, return the hardcoded record (supply_shares 1e18,
     borrow_shares 0, collateral 5e17) with source "mock". -/
def server_get_morpho_position (cs : String → Except String String)
    (chainResult : Option (Nat × Nat × Nat)) (excStr : Nat → String → String)
    (wallet pool_id : String) : Except ResolveError ServerPositionRecord :=
  match cs wallet with
  | .error msg => .error (.badRequest msg)
  | .ok wallet_address =>
    match dictGet MARKETS pool_id with
    | none => .error (.internal (excStr 400 ("Invalid pool_id: " ++ pool_id)))
    | some market_id =>
      if market_id.isEmpty then
        .error (.internal (excStr 400 ("Invalid pool_id: " ++ pool_id)))
      else
        match chainResult with
        | some (s, b, c) =>
          .ok ⟨wallet_address, pool_id, market_id,
               Nat.repr s, Nat.repr b, Nat.repr c, "on-chain"⟩
        | none =>
          .ok ⟨wallet_address, pool_id, market_id,
               "1000000000000000000", "0", "500000000000000000", "mock"⟩

/-- Outcome of server.py `POST /tools`: a 200 JSON body, or an error status
with a detail string. -/
inductive HttpOutcome where
  | ok (body : JVal)
  | err (status : Nat) (detail : String)

/-- HTTP status of a server.py `POST /tools` outcome. -/
def HttpOutcome.status : HttpOutcome → Nat
  | .ok _ => 200
  | .err s _ => s

/-- JSON body of a server.py `get_morpho_position` success (lines 174-196). -/
def serverPositionJson (r : ServerPositionRecord) : JVal :=
  .jobj [("wallet", .jstr r.wallet), ("pool_id", .jstr r.pool_id),
         ("market_id", .jstr r.market_id),
         ("supply_shares", .jstr r.supply_shares),
         ("borrow_shares", .jstr r.borrow_shares),
         ("collateral", .jstr r.collateral),
         ("source", .jstr r.source)]

/-- Dispatcher of server.py (`run_tool`, lines 206-227). The whole body sits
in `try ... except Exception as e: raise HTTPException(500, str(e))`, and
the FastAPI HTTPException is an Exception subclass, so every HTTPException the
body raises — including every deliberate 400 — is caught and re-raised with
status 500. Branch for branch:
  - `if not task` raises HTTPException(400, "No task specified") → re-wrapped
    to `err 500 (excStr 400 "No task specified")`;
  - task == "summarize" returns the `summarize_text` object with status 200;
  - task == "morpho_get_position": `if not wallet or not pool_id` raises
    HTTPException(400, "Missing wallet or pool_id") → re-wrapped to 500; an
    HTTPException escaping `get_morpho_position` is re-wrapped to 500; a
    success is returned with status 200;
  - any other task raises HTTPException(400, "Unknown task: ...") →
    re-wrapped to 500. -/
def run_tool (cs : String → Except String String)
    (chainResult : Option (Nat × Nat × Nat)) (excStr : Nat → String → String)
    (req : ToolRequest) : HttpOutcome :=
  let task := req.task.getD .jnull
  if !task.truthy then
    .err 500 (excStr 400 "No task specified")
  else if task.isStrEq "summarize" then
    let text := match req.text with
      | none => .jstr ""
      | some v => v
    .ok (summarize_text text)
  else if task.isStrEq "morpho_get_position" then
    let wallet := req.wallet.getD .jnull
    let pool_id := req.pool_id.getD .jnull
    if !wallet.truthy || !pool_id.truthy then
      .err 500 (excStr 400 "Missing wallet or pool_id")
    else
      match server_get_morpho_position cs chainResult excStr
              wallet.pyStr pool_id.pyStr with
      | .ok r => .ok (serverPositionJson r)
      | .error e => .err 500 (excStr e.status
          (match e with | .badRequest d => d | .internal d => d))
  else
    .err 500 (excStr 400 ("Unknown task: " ++ task.pyStr))

/-- WebSocket loop body of backend/main.py (`websocket_endpoint`, lines
158-176; server.py lines 230-246 is identical): the response sent for one
inbound text frame while the connection is open. `json.loads` is the `parse`
parameter; parse success answers {"status": "received", "message": <parsed>},
a JSONDecodeError answers {"status": "error", "message": "Invalid JSON"}.
Transport-level exceptions and disconnects leave the loop and close the
connection without a response (not modelled: no claim concerns them beyond
the two-response shape). -/
def websocket_step (parse : String → Option JVal) (frame : String) : JVal :=
  match parse frame with
  | some message => .jobj [("status", .jstr "received"), ("message", message)]
  | none => .jobj [("status", .jstr "error"), ("message", .jstr "Invalid JSON")]

/-- The `while True` receive loop: one response per inbound frame, in order. -/
def websocket_session (parse : String → Option JVal) (frames : List String) :
    List JVal :=
  frames.map (websocket_step parse)

/-- The process-wide tables both revisions read. State-passing embedding for
the mutability claim: each public operation takes the state and returns the
state it leaves behind, so any write the source performed would surface as a
state change here. The Python sources only ever call `.get` on these tables. -/
structure ServerState where
  markets : List (String × String)
  mock_positions : List (String × List (String × MockEntry))
deriving DecidableEq

/-- The state populated at start-up (import of backend/morpho_constants.py). -/
def initState : ServerState := ⟨MARKETS, MOCK_POSITIONS⟩

/-- Stateful `get_morpho_position`: reads the registry and mock store from
the state; performs no write. -/
def get_morpho_position_st (cs : String → Except String String)
    (chainResult : Option (Nat × Nat × Nat)) (wallet pool_id : String)
    (σ : ServerState) : (Except ResolveError PositionRecord × Nat) × ServerState :=
  (get_morpho_position_core σ.markets σ.mock_positions cs chainResult
     wallet pool_id, σ)

/-- Stateful SSE dispatcher: reads the registry and mock store from the
state; performs no write. -/
def stream_tool_response_st (cs : String → Except String String)
    (chainResult : Option (Nat × Nat × Nat)) (excRender : ResolveError → String)
    (req : ToolRequest) (σ : ServerState) : List JVal × ServerState :=
  (stream_tool_response_core σ.markets σ.mock_positions cs chainResult
     excRender positionJson req, σ)

/-- Stateful summarize: touches no table. -/
def summarize_text_st (text : JVal) (σ : ServerState) : JVal × ServerState :=
  (summarize_text text, σ)

/-- Stateful WebSocket step: touches no table. -/
def websocket_step_st (parse : String → Option JVal) (frame : String)
    (σ : ServerState) : JVal × ServerState :=
  (websocket_step parse frame, σ)

/-- Concrete stand-in for `Web3.to_checksum_address` on inputs that are
already in checksum form: the identity, with no failure. Used to instantiate
witnesses; the claim theorems are parametric in the real function. -/
def csId : String → Except String String := fun s => .ok s

/-- Concrete stand-in for the `str(exception)` renderer in witnesses. -/
def excRender0 : ResolveError → String := fun _ => ""

/-- Concrete stand-in for `json.loads` that always fails, for witnesses. -/
def parseNone : String → Option JVal := fun _ => none

/-- Every value stored in the Market Registry is a non-empty string, so the
`if not market_id` falsy test in the source reduces to key absence. -/
theorem MARKETS_value_ne_empty (p m : String) (h : dictGet MARKETS p = some m) :
    m.isEmpty = false := by
  simp only [MARKETS, dictGet] at h
  split_ifs at h <;> simp only [Option.some.injEq, reduceCtorEq] at h <;>
    subst h <;> decide

/-- Every entry of the Mock Position Store has three non-negative
decimal-integer string fields. -/
theorem mock_entry_fields_decimal (w p : String) (e : MockEntry)
    (h : mockLookup MOCK_POSITIONS w p = some e) :
    IsDecimalOfNat e.supply_shares ∧ IsDecimalOfNat e.borrow_shares ∧
      IsDecimalOfNat e.collateral := by
  simp only [mockLookup, MOCK_POSITIONS, dictGet] at h
  split_ifs at h with h1
  · simp only [Option.getD, dictGet] at h
    split_ifs at h with h2 h3
    · injection h with h
      subst h
      exact ⟨⟨1000000000000000000, rfl⟩, ⟨0, rfl⟩, ⟨500000000000000000, rfl⟩⟩
    · injection h with h
      subst h
      exact ⟨⟨2000000000000000000, rfl⟩, ⟨1000000000000000000, rfl⟩,
        ⟨1000000000000000000, rfl⟩⟩
  · simp only [Option.getD, dictGet, reduceCtorEq] at h

/-- C1: for a valid wallet and a pool id known to the registry, if the single
on-chain call fails and the (checksummed wallet, pool id) pair is absent from
the Mock Position Store, `get_morpho_position` returns a record with
supply_shares, borrow_shares and collateral all "0" and source = empty. -/
theorem C1_empty_fallback (cs : String → Except String String)
    (wallet pool_id w mid : String)
    (hcs : cs wallet = .ok w) (hm : dictGet MARKETS pool_id = some mid)
    (hmock : mockLookup MOCK_POSITIONS w pool_id = none) :
    (get_morpho_position cs none wallet pool_id).1 =
      .ok ⟨w, pool_id, mid, "0", "0", "0", Source.empty⟩ := by
  have hne := MARKETS_value_ne_empty pool_id mid hm
  simp [get_morpho_position, get_morpho_position_core, hcs, hm, hne, hmock]

/-- C1 witness: the test EOA has no mock entry for wstETH/USDC, so with the
chain call failing the resolver answers the all-zero empty record. -/
theorem C1_empty_fallback_witness :
    csId TEST_EOA = .ok TEST_EOA ∧
    dictGet MARKETS "wstETH/USDC" =
      some "0x5b592c6018b08a4fc0a33d0de0b8f2c3a42c5c6d8e314a26f04d312434191836" ∧
    mockLookup MOCK_POSITIONS TEST_EOA "wstETH/USDC" = none ∧
    (get_morpho_position csId none TEST_EOA "wstETH/USDC").1 =
      .ok ⟨TEST_EOA, "wstETH/USDC",
           "0x5b592c6018b08a4fc0a33d0de0b8f2c3a42c5c6d8e314a26f04d312434191836",
           "0", "0", "0", Source.empty⟩ :=
  ⟨rfl, rfl, rfl,
   C1_empty_fallback csId TEST_EOA "wstETH/USDC" TEST_EOA _ rfl rfl rfl⟩

/-- C2: for a valid wallet and a known pool id whose (checksummed wallet,
pool id) pair is present in the Mock Position Store, if the on-chain call
fails then `get_morpho_position` returns source = mock with supply_shares,
borrow_shares and collateral exactly the fields of the store entry. -/
theorem C2_mock_fallback (cs : String → Except String String)
    (wallet pool_id w mid : String) (m : MockEntry)
    (hcs : cs wallet = .ok w) (hm : dictGet MARKETS pool_id = some mid)
    (hmock : mockLookup MOCK_POSITIONS w pool_id = some m) :
    (get_morpho_position cs none wallet pool_id).1 =
      .ok ⟨w, pool_id, mid, m.supply_shares, m.borrow_shares, m.collateral,
           Source.mock⟩ := by
  have hne := MARKETS_value_ne_empty pool_id mid hm
  simp [get_morpho_position, get_morpho_position_core, hcs, hm, hne, hmock]

/-- C2 witness: the cbBTC/USDC store entry of the test EOA is returned
verbatim with source = mock when the chain call fails. -/
theorem C2_mock_fallback_witness :
    csId TEST_EOA = .ok TEST_EOA ∧
    dictGet MARKETS "cbBTC/USDC" =
      some "0x9103c3b4e834476c9a62ea009ba2c884ee42e94e6e314a26f04d312434191836" ∧
    mockLookup MOCK_POSITIONS TEST_EOA "cbBTC/USDC" =
      some ⟨"1000000000000000000", "0", "500000000000000000"⟩ ∧
    (get_morpho_position csId none TEST_EOA "cbBTC/USDC").1 =
      .ok ⟨TEST_EOA, "cbBTC/USDC",
           "0x9103c3b4e834476c9a62ea009ba2c884ee42e94e6e314a26f04d312434191836",
           "1000000000000000000", "0", "500000000000000000", Source.mock⟩ :=
  ⟨rfl, rfl, rfl,
   C2_mock_fallback csId TEST_EOA "cbBTC/USDC" TEST_EOA _
     ⟨"1000000000000000000", "0", "500000000000000000"⟩ rfl rfl rfl⟩

/-- C3: for a valid wallet and a known pool id, whatever the on-chain call
yields, `get_morpho_position` succeeds with a record whose source tag is one
of chain, mock, empty (serialized to exactly "chain"/"mock"/"empty") and
whose three numeric fields are non-negative decimal-integer strings. -/
theorem C3_source_and_decimal_fields (cs : String → Except String String)
    (chainResult : Option (Nat × Nat × Nat)) (wallet pool_id w mid : String)
    (hcs : cs wallet = .ok w) (hm : dictGet MARKETS pool_id = some mid) :
    ∃ r : PositionRecord,
      (get_morpho_position cs chainResult wallet pool_id).1 = .ok r ∧
      (r.source = Source.chain ∨ r.source = Source.mock ∨
        r.source = Source.empty) ∧
      r.source.toStr ∈ ["chain", "mock", "empty"] ∧
      IsDecimalOfNat r.supply_shares ∧ IsDecimalOfNat r.borrow_shares ∧
      IsDecimalOfNat r.collateral := by
  have hne := MARKETS_value_ne_empty pool_id mid hm
  cases chainResult with
  | some t =>
    obtain ⟨s, bc⟩ := t
    obtain ⟨b, c⟩ := bc
    exact ⟨⟨w, pool_id, mid, Nat.repr s, Nat.repr b, Nat.repr c, .chain⟩,
      by simp [get_morpho_position, get_morpho_position_core, hcs, hm, hne],
      Or.inl rfl, by simp [Source.toStr], ⟨s, rfl⟩, ⟨b, rfl⟩, ⟨c, rfl⟩⟩
  | none =>
    cases hmk : mockLookup MOCK_POSITIONS w pool_id with
    | some m =>
      obtain ⟨d1, d2, d3⟩ := mock_entry_fields_decimal w pool_id m hmk
      exact ⟨⟨w, pool_id, mid, m.supply_shares, m.borrow_shares, m.collateral,
               .mock⟩,
        by simp [get_morpho_position, get_morpho_position_core, hcs, hm, hne,
                 hmk],
        Or.inr (Or.inl rfl), by simp [Source.toStr], d1, d2, d3⟩
    | none =>
      exact ⟨⟨w, pool_id, mid, "0", "0", "0", .empty⟩,
        by simp [get_morpho_position, get_morpho_position_core, hcs, hm, hne,
                 hmk],
        Or.inr (Or.inr rfl), by simp [Source.toStr], ⟨0, rfl⟩, ⟨0, rfl⟩,
        ⟨0, rfl⟩⟩

/-- C3 witness: with the chain call succeeding on (5, 7, 9), the resolver
returns a well-formed record for the test EOA in cbETH/USDC. -/
theorem C3_source_and_decimal_fields_witness :
    csId TEST_EOA = .ok TEST_EOA ∧
    dictGet MARKETS "cbETH/USDC" =
      some "0x7b592c6018b08a4fc0a33d0de0b8f2c3a42c5c6d8e314a26f04d312434191836" ∧
    ∃ r : PositionRecord,
      (get_morpho_position csId (some (5, 7, 9)) TEST_EOA "cbETH/USDC").1 =
        .ok r ∧
      (r.source = Source.chain ∨ r.source = Source.mock ∨
        r.source = Source.empty) ∧
      r.source.toStr ∈ ["chain", "mock", "empty"] ∧
      IsDecimalOfNat r.supply_shares ∧ IsDecimalOfNat r.borrow_shares ∧
      IsDecimalOfNat r.collateral :=
  ⟨rfl, rfl,
   C3_source_and_decimal_fields csId (some (5, 7, 9)) TEST_EOA "cbETH/USDC"
     TEST_EOA _ rfl rfl⟩

/-- C4: for a valid wallet and a pool id absent from the Market Registry,
`get_morpho_position` fails with the 400 "Invalid pool_id" error and the
on-chain call count is zero: the failure precedes any network attempt. -/
theorem C4_unknown_pool_no_network (cs : String → Except String String)
    (chainResult : Option (Nat × Nat × Nat)) (wallet pool_id w : String)
    (hcs : cs wallet = .ok w) (hm : dictGet MARKETS pool_id = none) :
    (get_morpho_position cs chainResult wallet pool_id).1 =
      .error (.badRequest ("Invalid pool_id: " ++ pool_id)) ∧
    (get_morpho_position cs chainResult wallet pool_id).2 = 0 := by
  constructor <;>
    simp [get_morpho_position, get_morpho_position_core, hcs, hm]

/-- C4 witness: the pool id "nope" is not in the registry; the resolver
fails with the 400 error and makes zero chain calls. -/
theorem C4_unknown_pool_no_network_witness :
    csId TEST_EOA = .ok TEST_EOA ∧
    dictGet MARKETS "nope" = none ∧
    (get_morpho_position csId (some (1, 2, 3)) TEST_EOA "nope").1 =
      .error (.badRequest ("Invalid pool_id: " ++ "nope")) ∧
    (get_morpho_position csId (some (1, 2, 3)) TEST_EOA "nope").2 = 0 :=
  ⟨rfl, rfl,
   C4_unknown_pool_no_network csId (some (1, 2, 3)) TEST_EOA "nope" TEST_EOA
     rfl rfl⟩

/-- C5 evaluation: in server.py `run_tool`, every deliberate client error —
missing task, unknown task, missing wallet/pool_id, unknown pool id — is
raised as HTTPException(400, ...) but then caught by its own blanket
`except Exception` and re-raised as status 500, so the client-error
class never reaches the caller. -/
theorem C5_client_errors_surface_as_500 (cs : String → Except String String)
    (chainResult : Option (Nat × Nat × Nat)) (excStr : Nat → String → String) :
    (run_tool cs chainResult excStr ⟨none, none, none, none⟩).status = 500 ∧
    (run_tool cs chainResult excStr
       ⟨some (.jstr "frobnicate"), none, none, none⟩).status = 500 ∧
    (run_tool cs chainResult excStr
       ⟨some (.jstr "morpho_get_position"), none, none,
        some (.jstr "cbBTC/USDC")⟩).status = 500 ∧
    (run_tool cs chainResult excStr
       ⟨some (.jstr "morpho_get_position"), none, some (.jstr TEST_EOA),
        some (.jstr "nope")⟩).status = 500 := by
  refine ⟨rfl, rfl, rfl, ?_⟩
  obtain ⟨e, he⟩ : ∃ e, server_get_morpho_position cs chainResult excStr
      TEST_EOA "nope" = .error e := by
    unfold server_get_morpho_position
    cases cs TEST_EOA with
    | error msg => exact ⟨_, rfl⟩
    | ok w => exact ⟨_, rfl⟩
  simp +decide [run_tool, JVal.pyStr, he, HttpOutcome.status]

/-- C6 counterexample: dispatching task "summarize" with the `text` key
absent does not fail with a missing-parameter error — `request.get("text",
"")` defaults to the empty string and the dispatcher produces the result
frame {"summary": ""}. -/
theorem C6_missing_text_summarizes :
    stream_tool_response csId none excRender0
      ⟨some (.jstr "summarize"), none, none, none⟩ =
      [.jobj [("summary", .jstr "")]] := rfl

/-- C6 amended: a dispatch of task "morpho_get_position" with `wallet` or
`pool_id` absent (or otherwise falsy) fails with the missing-parameter error
frame; but a missing `text` for task "summarize" does not fail — it defaults
to the empty string and yields {"summary": ""}. -/
theorem C6_missing_params (cs : String → Except String String)
    (chainResult : Option (Nat × Nat × Nat)) (excRender : ResolveError → String)
    (t w p : Option JVal)
    (h : (w.getD .jnull).truthy = false ∨ (p.getD .jnull).truthy = false) :
    stream_tool_response cs chainResult excRender
      ⟨some (.jstr "morpho_get_position"), t, w, p⟩ =
      [.jobj [("error", .jstr "Missing wallet or pool_id")]] ∧
    stream_tool_response cs chainResult excRender
      ⟨some (.jstr "summarize"), none, w, p⟩ =
      [.jobj [("summary", .jstr "")]] := by
  constructor
  · rcases h with h | h <;>
      simp +decide [stream_tool_response, stream_tool_response_core, h]
  · rfl

/-- C6 witness: with wallet and pool_id both absent the morpho dispatch
fails with the missing-parameter frame, and summarize without text yields
the empty-string summary. -/
theorem C6_missing_params_witness :
    ((none : Option JVal).getD .jnull).truthy = false ∧
    stream_tool_response csId none excRender0
      ⟨some (.jstr "morpho_get_position"), none, none, none⟩ =
      [.jobj [("error", .jstr "Missing wallet or pool_id")]] ∧
    stream_tool_response csId none excRender0
      ⟨some (.jstr "summarize"), none, none, none⟩ =
      [.jobj [("summary", .jstr "")]] :=
  ⟨rfl,
   (C6_missing_params csId none excRender0 none none none (Or.inl rfl)).1,
   (C6_missing_params csId none excRender0 none none none (Or.inl rfl)).2⟩

/-- C7: for every string t, dispatching {task: "summarize", text: t} yields
exactly the frame {"summary": t}: the summarize operation is the identity on
its text input. -/
theorem C7_summarize_identity (cs : String → Except String String)
    (chainResult : Option (Nat × Nat × Nat)) (excRender : ResolveError → String)
    (t : String) (w p : Option JVal) :
    stream_tool_response cs chainResult excRender
      ⟨some (.jstr "summarize"), some (.jstr t), w, p⟩ =
      [.jobj [("summary", .jstr t)]] := rfl

/-- C8: for one inbound text frame on an open connection, the handler
answers {"status": "received", "message": <parsed>} exactly when the frame
parses as JSON, answers {"status": "error", "message": "Invalid JSON"}
exactly when parsing fails, and these two are the only possible responses. -/
theorem C8_websocket_echo (parse : String → Option JVal) (frame : String) :
    (∀ m, parse frame = some m →
        websocket_step parse frame =
          .jobj [("status", .jstr "received"), ("message", m)]) ∧
    (parse frame = none →
        websocket_step parse frame =
          .jobj [("status", .jstr "error"), ("message", .jstr "Invalid JSON")]) ∧
    (websocket_step parse frame =
        .jobj [("status", .jstr "error"), ("message", .jstr "Invalid JSON")] ∨
      ∃ m, parse frame = some m ∧
        websocket_step parse frame =
          .jobj [("status", .jstr "received"), ("message", m)]) := by
  cases h : parse frame with
  | none =>
    exact ⟨fun m hm => absurd hm (by simp),
      fun _ => by simp [websocket_step, h],
      Or.inl (by simp [websocket_step, h])⟩
  | some m =>
    refine ⟨fun m2 hm2 => ?_, fun hn => absurd hn (by simp),
      Or.inr ⟨m, rfl, by simp [websocket_step, h]⟩⟩
    cases hm2
    simp [websocket_step, h]

/-- C8 witness: a frame that fails to parse is answered with the
Invalid JSON error object. -/
theorem C8_websocket_echo_witness :
    websocket_step parseNone "not json" =
      .jobj [("status", .jstr "error"), ("message", .jstr "Invalid JSON")] :=
  (C8_websocket_echo parseNone "not json").2.1 rfl

/-- C9: every public operation — the position resolver, the tool dispatcher,
summarize, the WebSocket step — returns the process-wide state (Market
Registry and Mock Position Store) unchanged, and the start-up state is
exactly the module constants. Under the state-passing embedding any write
the source performed would show up as a changed state. -/
theorem C9_tables_never_mutated (cs : String → Except String String)
    (chainResult : Option (Nat × Nat × Nat)) (excRender : ResolveError → String)
    (parse : String → Option JVal) (wallet pool_id frame : String)
    (text : JVal) (req : ToolRequest) (σ : ServerState) :
    (get_morpho_position_st cs chainResult wallet pool_id σ).2 = σ ∧
    (stream_tool_response_st cs chainResult excRender req σ).2 = σ ∧
    (summarize_text_st text σ).2 = σ ∧
    (websocket_step_st parse frame σ).2 = σ ∧
    initState.markets = MARKETS ∧ initState.mock_positions = MOCK_POSITIONS :=
  ⟨rfl, rfl, rfl, rfl, rfl, rfl⟩

/-- C10: parameter presence is decided by Python truthiness, not key
presence: a present-but-falsy task is rejected exactly like an absent task,
and a present-but-falsy wallet or pool_id for task "morpho_get_position"
fails with the same missing-parameter error frame as an absent one. -/
theorem C10_falsy_equals_missing (cs : String → Except String String)
    (chainResult : Option (Nat × Nat × Nat)) (excRender : ResolveError → String)
    (t w p : Option JVal) (v : JVal) (h : v.truthy = false) :
    (stream_tool_response cs chainResult excRender ⟨some v, t, w, p⟩ =
        stream_tool_response cs chainResult excRender ⟨none, t, w, p⟩ ∧
      stream_tool_response cs chainResult excRender ⟨some v, t, w, p⟩ =
        [.jobj [("error", .jstr "No task specified")]]) ∧
    (stream_tool_response cs chainResult excRender
        ⟨some (.jstr "morpho_get_position"), t, some v, p⟩ =
        stream_tool_response cs chainResult excRender
          ⟨some (.jstr "morpho_get_position"), t, none, p⟩ ∧
      stream_tool_response cs chainResult excRender
        ⟨some (.jstr "morpho_get_position"), t, some v, p⟩ =
        [.jobj [("error", .jstr "Missing wallet or pool_id")]]) ∧
    (stream_tool_response cs chainResult excRender
        ⟨some (.jstr "morpho_get_position"), t, w, some v⟩ =
        stream_tool_response cs chainResult excRender
          ⟨some (.jstr "morpho_get_position"), t, w, none⟩ ∧
      stream_tool_response cs chainResult excRender
        ⟨some (.jstr "morpho_get_position"), t, w, some v⟩ =
        [.jobj [("error", .jstr "Missing wallet or pool_id")]]) := by
  refine ⟨⟨?_, ?_⟩, ⟨?_, ?_⟩, ⟨?_, ?_⟩⟩ <;>
    simp +decide [stream_tool_response, stream_tool_response_core, h]

/-- C10 witness: the falsy value 0 for task, wallet or pool_id is treated
exactly like an absent key. -/
theorem C10_falsy_equals_missing_witness :
    JVal.truthy (.jnum 0) = false ∧
    stream_tool_response csId none excRender0
      ⟨some (.jnum 0), none, none, none⟩ =
      [.jobj [("error", .jstr "No task specified")]] ∧
    stream_tool_response csId none excRender0
      ⟨some (.jstr "morpho_get_position"), none, some (.jnum 0), none⟩ =
      [.jobj [("error", .jstr "Missing wallet or pool_id")]] ∧
    stream_tool_response csId none excRender0
      ⟨some (.jstr "morpho_get_position"), none, none, some (.jnum 0)⟩ =
      [.jobj [("error", .jstr "Missing wallet or pool_id")]] :=
  ⟨rfl,
   (C10_falsy_equals_missing csId none excRender0 none none none (.jnum 0)
      rfl).1.2,
   (C10_falsy_equals_missing csId none excRender0 none none none (.jnum 0)
      rfl).2.1.2,
   (C10_falsy_equals_missing csId none excRender0 none none none (.jnum 0)
      rfl).2.2.2⟩
